import Mathlib

/-!
Verification development for the effless repository, covering the geodesic
distance engine (src/logic/distance_logic.rs) and the icon rasterizer core
(src/tools/icon.rs).

Modelling conventions:
* Rust f64 values are idealized as real numbers; f64 inputs are in fact
  always rational, so coordinate inputs are modelled as rationals and the
  transcendental computation is carried out over the reals.
* Rust strings are modelled as lists of characters, with an explicit UTF-8
  byte-length function where the source indexes by bytes.
* A Rust operation that can panic is modelled with an explicit outcome type
  distinguishing a normal return from a panic.
-/

/-- Outcome of running a Rust expression: either a normal return or a panic. -/
inductive RunResult (α : Type) : Type
  | panicked : RunResult α
  | ret : α → RunResult α
deriving DecidableEq

/-- Decidable equality on Except values, so that concrete runs of the
fallible models can be evaluated inside proofs. -/
instance exceptDecidableEq {ε α : Type} [DecidableEq ε] [DecidableEq α] :
    DecidableEq (Except ε α) := fun x y =>
  match x, y with
  | Except.error a, Except.error b =>
    if h : a = b then isTrue (by rw [h]) else isFalse (by simp [h])
  | Except.error _, Except.ok _ => isFalse (by simp)
  | Except.ok _, Except.error _ => isFalse (by simp)
  | Except.ok a, Except.ok b =>
    if h : a = b then isTrue (by rw [h]) else isFalse (by simp [h])

/-- Coordinates from distance_logic.rs (lines 3-7); the f64 fields are
modelled as rationals since every f64 value is rational. -/
structure Coordinates where
  lat : ℚ
  lon : ℚ
deriving DecidableEq

/-- Distance from distance_logic.rs (lines 9-13); derived real-valued fields. -/
structure Distance where
  km : ℝ
  miles : ℝ

/-- DistanceError from distance_logic.rs (lines 15-19). -/
inductive DistanceError : Type
  | InvalidLatitude : ℚ → DistanceError
  | InvalidLongitude : ℚ → DistanceError
deriving DecidableEq

/-- DistanceLogic::validate_coordinates (distance_logic.rs lines 28-36). -/
def validate_coordinates (lat lon : ℚ) : Except DistanceError Coordinates :=
  if lat < -90 ∨ 90 < lat then Except.error (DistanceError.InvalidLatitude lat)
  else if lon < -180 ∨ 180 < lon then Except.error (DistanceError.InvalidLongitude lon)
  else Except.ok ⟨lat, lon⟩

open scoped Classical in
/-- Four-quadrant arctangent, the mathematical function computed by
f64::atan2 (idealized over the reals). -/
noncomputable def arctan2 (y x : ℝ) : ℝ :=
  if 0 < x then Real.arctan (y / x)
  else if x < 0 then
    (if 0 ≤ y then Real.arctan (y / x) + Real.pi else Real.arctan (y / x) - Real.pi)
  else
    (if 0 < y then Real.pi / 2 else if y < 0 then -(Real.pi / 2) else 0)

/-- DistanceLogic::calculate_distance (distance_logic.rs lines 39-54),
with EARTH_RADIUS_KM = 6371.0 and KM_TO_MILES = 0.621371 (lines 24-25). -/
noncomputable def calculate_distance (point1 point2 : Coordinates) : Distance :=
  let lat1_rad : ℝ := (point1.lat : ℝ) * Real.pi / 180
  let lat2_rad : ℝ := (point2.lat : ℝ) * Real.pi / 180
  let delta_lat : ℝ := ((point2.lat : ℝ) - (point1.lat : ℝ)) * Real.pi / 180
  let delta_lon : ℝ := ((point2.lon : ℝ) - (point1.lon : ℝ)) * Real.pi / 180
  let a : ℝ := Real.sin (delta_lat / 2) ^ 2 +
      Real.cos lat1_rad * Real.cos lat2_rad * Real.sin (delta_lon / 2) ^ 2
  let c : ℝ := 2 * arctan2 (Real.sqrt a) (Real.sqrt (1 - a))
  let km : ℝ := 6371.0 * c
  { km := km, miles := km * 0.621371 }

/-- DistanceLogic::calculate_with_validation (distance_logic.rs lines 57-62). -/
noncomputable def calculate_with_validation (lat1 lon1 lat2 lon2 : ℚ) :
    Except DistanceError Distance :=
  match validate_coordinates lat1 lon1 with
  | Except.error e => Except.error e
  | Except.ok point1 =>
    match validate_coordinates lat2 lon2 with
    | Except.error e => Except.error e
    | Except.ok point2 => Except.ok (calculate_distance point1 point2)

/-- The Haversine great-circle distance in km exactly as the specification
words it: a = sin²(Δlat/2) + cos(lat1)·cos(lat2)·sin²(Δlon/2),
c = 2·atan2(√a, √(1−a)), km = 6371.0·c, with angles converted
degrees→radians before use. -/
noncomputable def haversine_spec_km (lat1 lon1 lat2 lon2 : ℝ) : ℝ :=
  let phi1 : ℝ := lat1 * Real.pi / 180
  let phi2 : ℝ := lat2 * Real.pi / 180
  let lam1 : ℝ := lon1 * Real.pi / 180
  let lam2 : ℝ := lon2 * Real.pi / 180
  let a : ℝ := Real.sin ((phi2 - phi1) / 2) ^ 2 +
      Real.cos phi1 * Real.cos phi2 * Real.sin ((lam2 - lam1) / 2) ^ 2
  6371.0 * (2 * arctan2 (Real.sqrt a) (Real.sqrt (1 - a)))

/-- Number of bytes of the UTF-8 encoding of a character. -/
def utf8_len (c : Char) : ℕ :=
  if c.toNat < 128 then 1
  else if c.toNat < 2048 then 2
  else if c.toNat < 65536 then 3
  else 4

/-- UTF-8 byte length of a string (Rust str::len counts bytes). -/
def utf8_length : List Char → ℕ
  | [] => 0
  | c :: rest => utf8_len c + utf8_length rest

/-- Split a string at a UTF-8 byte offset, as Rust byte-range slicing does:
returns none when the offset is not a character boundary (or past the end),
which in Rust is a panic. -/
def split_at_byte : ℕ → List Char → Option (List Char × List Char)
  | 0, s => some ([], s)
  | _ + 1, [] => none
  | n + 1, c :: rest =>
    if utf8_len c ≤ n + 1 then
      (split_at_byte (n + 1 - utf8_len c) rest).map (fun p => (c :: p.1, p.2))
    else none

/-- Value of one hexadecimal digit, the semantics of char::to_digit(16)
used by u8::from_str_radix. -/
def hex_digit_val (c : Char) : Option ℕ :=
  if 48 ≤ c.toNat ∧ c.toNat ≤ 57 then some (c.toNat - 48)
  else if 97 ≤ c.toNat ∧ c.toNat ≤ 102 then some (c.toNat - 87)
  else if 65 ≤ c.toNat ∧ c.toNat ≤ 70 then some (c.toNat - 55)
  else none

/-- Accumulating fold over hexadecimal digits; none at the first non-digit. -/
def hex_fold : ℕ → List Char → Option ℕ
  | acc, [] => some acc
  | acc, c :: rest =>
    match hex_digit_val c with
    | some d => hex_fold (acc * 16 + d) rest
    | none => none

/-- u8::from_str_radix(s, 16): an optional leading plus sign followed by a
nonempty run of hexadecimal digits whose value fits in a u8 (for unsigned
targets a minus sign is rejected as an invalid digit). -/
def from_str_radix_16_u8 (s : List Char) : Option ℕ :=
  match s with
  | [] => none
  | c :: rest =>
    let digits := if c = '+' then rest else c :: rest
    match digits with
    | [] => none
    | _ => (hex_fold 0 digits).bind (fun v => if v ≤ 255 then some v else none)

/-- IconTool::parse_hex_color (icon.rs lines 173-184). The source first
strips every leading hash with trim_start_matches, rejects unless the
remaining byte length is 6, then byte-slices the three 2-byte groups
(&hex[0..2], &hex[2..4], &hex[4..6]) and parses each with
u8::from_str_radix(_, 16). A byte slice whose end is not a character
boundary panics, and each group parse error returns early before the next
slice is taken, so panics and errors are sequenced as in the source. -/
def parse_hex_color (s : List Char) : RunResult (Except String (ℕ × ℕ × ℕ)) :=
  let hex := s.dropWhile (fun c => c == '#')
  if utf8_length hex ≠ 6 then
    RunResult.ret (Except.error "Color must be in #RRGGBB format")
  else
    match split_at_byte 2 hex with
    | none => RunResult.panicked
    | some (s1, rest1) =>
      match from_str_radix_16_u8 s1 with
      | none => RunResult.ret (Except.error "Invalid red component")
      | some r =>
        match split_at_byte 2 rest1 with
        | none => RunResult.panicked
        | some (s2, rest2) =>
          match from_str_radix_16_u8 s2 with
          | none => RunResult.ret (Except.error "Invalid green component")
          | some g =>
            match split_at_byte 2 rest2 with
            | none => RunResult.panicked
            | some (s3, _) =>
              match from_str_radix_16_u8 s3 with
              | none => RunResult.ret (Except.error "Invalid blue component")
              | some b => RunResult.ret (Except.ok (r, g, b))

/-- The claim reading of parseColor: at most one optional leading hash is
stripped, and exactly 6 hexadecimal digits must remain. -/
def claim_c5_accepts (s : List Char) : Bool :=
  let hex := match s with
    | '#' :: rest => rest
    | _ => s
  hex.length == 6 && hex.all (fun c => (hex_digit_val c).isSome)

/-- Unicode White_Space property, the semantics of char::is_whitespace
used by str::trim. -/
def rust_is_whitespace (c : Char) : Bool :=
  c ∈ [' ', '\t', '\n', '\x0b', '\x0c', '\r', '\u0085', ' ', ' ',
    ' ', ' ', ' ', ' ', ' ', ' ', ' ',
    ' ', ' ', ' ', ' ', ' ', ' ', ' ',
    ' ', '　']

/-- str::trim: whitespace removed from both ends. -/
def rust_trim (s : List Char) : List Char :=
  ((s.dropWhile rust_is_whitespace).reverse.dropWhile rust_is_whitespace).reverse

/-- str::parse::<u32>: an optional leading plus sign followed by a nonempty
run of decimal digits whose value fits in a u32 (a minus sign is rejected
for the unsigned target type). -/
def parse_u32 (s : List Char) : Option ℕ :=
  match s with
  | [] => none
  | c :: rest =>
    let digits := if c = '+' then rest else c :: rest
    match digits with
    | [] => none
    | _ =>
      if digits.all Char.isDigit then
        let v := digits.foldl (fun a c => a * 10 + (c.toNat - 48)) 0
        if v < 4294967296 then some v else none
      else none

/-- The size gate of IconTool::generate_icon (icon.rs lines 102-108):
the size string must parse as a u32 in [16, 1024]. -/
def size_check (s : List Char) : Option ℕ :=
  match parse_u32 s with
  | some n => if 16 ≤ n ∧ n ≤ 1024 then some n else none
  | none => none

/-- Validation failures of IconTool::generate_icon, in source order. -/
inductive IconErr : Type
  | EmptyText : IconErr
  | InvalidSize : IconErr
  | InvalidBackgroundColor : String → IconErr
  | InvalidTextColor : String → IconErr
  | IndistinctColors : IconErr
deriving DecidableEq

/-- The data available once all five validation checks pass. -/
structure ValidatedSpec where
  size : ℕ
  bg : ℕ × ℕ × ℕ
  tc : ℕ × ℕ × ℕ
deriving DecidableEq

/-- The four user-editable string fields read by generate_icon. -/
structure IconInputs where
  text : List Char
  size : List Char
  background_color : List Char
  text_color : List Char
deriving DecidableEq

/-- The validation prefix of IconTool::generate_icon (icon.rs lines 97-130):
empty-after-trim text, size, background color, text color, then distinct
colors, stopping at the first failure. A panic inside parse_hex_color
propagates: these calls are outside the catch_unwind boundary of line 133. -/
def validate_icon (inp : IconInputs) : RunResult (Except IconErr ValidatedSpec) :=
  if rust_trim inp.text = [] then RunResult.ret (Except.error IconErr.EmptyText)
  else
    match size_check inp.size with
    | none => RunResult.ret (Except.error IconErr.InvalidSize)
    | some n =>
      match parse_hex_color inp.background_color with
      | RunResult.panicked => RunResult.panicked
      | RunResult.ret (Except.error e) =>
        RunResult.ret (Except.error (IconErr.InvalidBackgroundColor e))
      | RunResult.ret (Except.ok bg) =>
        match parse_hex_color inp.text_color with
        | RunResult.panicked => RunResult.panicked
        | RunResult.ret (Except.error e) =>
          RunResult.ret (Except.error (IconErr.InvalidTextColor e))
        | RunResult.ret (Except.ok tc) =>
          if bg = tc then RunResult.ret (Except.error IconErr.IndistinctColors)
          else RunResult.ret (Except.ok ⟨n, bg, tc⟩)

/-- Status message set by generate_icon for each validation failure
(icon.rs lines 98, 105, 113, 121, 128). -/
def icon_err_status : IconErr → String
  | IconErr.EmptyText => "Please enter text for the icon"
  | IconErr.InvalidSize => "Size must be a number between 16 and 1024"
  | IconErr.InvalidBackgroundColor e => "Invalid background color: " ++ e
  | IconErr.InvalidTextColor e => "Invalid text color: " ++ e
  | IconErr.IndistinctColors =>
    "Background and text colors should be different for better visibility"

/-- The mutable fields of IconTool touched by generate_icon
(icon.rs lines 37-46); png bytes and the preview handle are modelled as
byte lists. -/
structure IconState where
  text : List Char
  size : List Char
  background_color : List Char
  text_color : List Char
  generated_icon : Option (List ℕ)
  icon_handle : Option (List ℕ)
  status_message : String
deriving DecidableEq

/-- The inputs read by generate_icon from the tool state. -/
def icon_inputs (st : IconState) : IconInputs :=
  ⟨st.text, st.size, st.background_color, st.text_color⟩

/-- IconTool::generate_icon as a state transition (icon.rs lines 92-171),
parametrized by the rasterizer body (the catch_unwind around
create_icon_image, line 133) and by the preview-handle constructor (the
catch_unwind around Handle::from_bytes, line 145). The source resets
icon_handle and generated_icon to None first (lines 94-95). -/
def generate_icon_step
    (render : ValidatedSpec → RunResult (Except String (List ℕ)))
    (mk_handle : List ℕ → RunResult (List ℕ))
    (st : IconState) : RunResult IconState :=
  let st0 : IconState := { st with icon_handle := none, generated_icon := none }
  match validate_icon (icon_inputs st) with
  | RunResult.panicked => RunResult.panicked
  | RunResult.ret (Except.error e) =>
    RunResult.ret { st0 with status_message := icon_err_status e }
  | RunResult.ret (Except.ok spec) =>
    match render spec with
    | RunResult.panicked =>
      RunResult.ret { st0 with status_message :=
        "Icon generation failed due to internal error. Try different settings." }
    | RunResult.ret (Except.error e) =>
      RunResult.ret { st0 with status_message := "Failed to generate icon: " ++ e }
    | RunResult.ret (Except.ok image_data) =>
      if image_data = [] then
        RunResult.ret { st0 with status_message :=
          "Failed to generate icon: Empty image data" }
      else
        match mk_handle image_data with
        | RunResult.panicked =>
          RunResult.ret
            { st0 with
              generated_icon := some image_data
              status_message := "Failed to create image preview" }
        | RunResult.ret h =>
          RunResult.ret
            { st0 with
              icon_handle := some h
              generated_icon := some image_data
              status_message := "Icon generated successfully!" }

/-- u32::MAX, the saturation bound of the saturating arithmetic used in the
rasterizer. -/
def u32_max : ℕ := 4294967295

/-- u32::saturating_mul. -/
def sat_mul (a b : ℕ) : ℕ := min (a * b) u32_max

/-- u32::saturating_add. -/
def sat_add (a b : ℕ) : ℕ := min (a + b) u32_max

/-- Per-character cell width used by the horizontal text layout of
IconTool::create_icon_image (icon.rs line 247):
5u32.saturating_mul(max(1, font_size / 8)). -/
def layout_char_pixel_width (font_size : ℕ) : ℕ :=
  sat_mul 5 (max 1 (font_size / 8))

/-- Pixel-block size used by IconTool::draw_simple_text (icon.rs line 309):
max(1, min(size / 8, 8)). -/
def draw_pixel_size (sz : ℕ) : ℕ := max 1 (min (sz / 8) 8)

/-- Per-character cell width used by IconTool::draw_simple_text
(icon.rs line 317): 5u32.saturating_mul(pixel_size). -/
def draw_char_pixel_width (sz : ℕ) : ℕ := sat_mul 5 (draw_pixel_size sz)

/-- Base font size of create_icon_image (icon.rs lines 234-239): the f32
products size*0.6, size*0.45, size*0.35, size*0.3 truncated to u32, with
each f32 literal written as its exact rational value (0.6f32 is
10066330/2^24, and so on). The natural-number division is the exact floor,
which agrees with the f32 computation whenever the product is exactly
representable, in particular at every power-of-two size used below. -/
def base_font_size (size count : ℕ) : ℕ :=
  match count with
  | 1 => size * 10066330 / 16777216
  | 2 => size * 15099494 / 33554432
  | 3 => size * 23488102 / 67108864
  | _ => size * 20132659 / 67108864

/-- Font size of create_icon_image (icon.rs line 240): max(8, base). -/
def font_size_model (size count : ℕ) : ℕ := max 8 (base_font_size size count)

/-- Uppercase mapping of one character under str::to_uppercase, on the
character set relevant here: ASCII letters map to their single uppercase
letter, the sharp s expands to the two characters SS (the Unicode special
casing the source inherits from the standard library), and other
characters with a one-to-one mapping behave like the identity branch. -/
def rust_char_to_uppercase (c : Char) : List Char :=
  if c = 'ß' then ['S', 'S'] else [c.toUpper]

/-- str::to_uppercase: concatenation of per-character uppercase mappings. -/
def rust_to_uppercase : List Char → List Char
  | [] => []
  | c :: rest => rust_char_to_uppercase c ++ rust_to_uppercase rest

/-- The display text of create_icon_image (icon.rs lines 221-230): clip to
the first 3 characters when longer than 3, then uppercase. -/
def display_text (t : List Char) : List Char :=
  if t.length > 3 then rust_to_uppercase (t.take 3) else rust_to_uppercase t

/-- The characters actually processed by the glyph loop of
draw_simple_text (icon.rs lines 325-338): characters are visited in order
with char_x = start_x saturating_add idx saturating_mul (cell width
saturating_add spacing), and the loop breaks as soon as char_x reaches the
canvas width or start_y reaches the canvas height. -/
def drawn_glyphs (width height start_x start_y step : ℕ) : ℕ → List Char → List Char
  | _, [] => []
  | idx, c :: rest =>
    if width ≤ sat_add start_x (sat_mul idx step) ∨ height ≤ start_y then []
    else c :: drawn_glyphs width height start_x start_y step (idx + 1) rest

/-- IconTool::get_char_pattern (icon.rs lines 381-717): the 7-row by
5-column bit matrix for each supported character, with a fallback pattern
for every other character. -/
def get_char_pattern (c : Char) : List (List ℕ) :=
  match c with
  | 'A' =>
    [[0, 1, 1, 1, 0],
     [1, 0, 0, 0, 1],
     [1, 0, 0, 0, 1],
     [1, 1, 1, 1, 1],
     [1, 0, 0, 0, 1],
     [1, 0, 0, 0, 1],
     [1, 0, 0, 0, 1]]
  | 'B' =>
    [[1, 1, 1, 1, 0],
     [1, 0, 0, 0, 1],
     [1, 0, 0, 0, 1],
     [1, 1, 1, 1, 0],
     [1, 0, 0, 0, 1],
     [1, 0, 0, 0, 1],
     [1, 1, 1, 1, 0]]
  | 'C' =>
    [[0, 1, 1, 1, 0],
     [1, 0, 0, 0, 1],
     [1, 0, 0, 0, 0],
     [1, 0, 0, 0, 0],
     [1, 0, 0, 0, 0],
     [1, 0, 0, 0, 1],
     [0, 1, 1, 1, 0]]
  | 'D' =>
    [[1, 1, 1, 1, 0],
     [1, 0, 0, 0, 1],
     [1, 0, 0, 0, 1],
     [1, 0, 0, 0, 1],
     [1, 0, 0, 0, 1],
     [1, 0, 0, 0, 1],
     [1, 1, 1, 1, 0]]
  | 'E' =>
    [[1, 1, 1, 1, 1],
     [1, 0, 0, 0, 0],
     [1, 0, 0, 0, 0],
     [1, 1, 1, 1, 0],
     [1, 0, 0, 0, 0],
     [1, 0, 0, 0, 0],
     [1, 1, 1, 1, 1]]
  | 'F' =>
    [[1, 1, 1, 1, 1],
     [1, 0, 0, 0, 0],
     [1, 0, 0, 0, 0],
     [1, 1, 1, 1, 0],
     [1, 0, 0, 0, 0],
     [1, 0, 0, 0, 0],
     [1, 0, 0, 0, 0]]
  | 'G' =>
    [[0, 1, 1, 1, 0],
     [1, 0, 0, 0, 1],
     [1, 0, 0, 0, 0],
     [1, 0, 1, 1, 1],
     [1, 0, 0, 0, 1],
     [1, 0, 0, 0, 1],
     [0, 1, 1, 1, 0]]
  | 'H' =>
    [[1, 0, 0, 0, 1],
     [1, 0, 0, 0, 1],
     [1, 0, 0, 0, 1],
     [1, 1, 1, 1, 1],
     [1, 0, 0, 0, 1],
     [1, 0, 0, 0, 1],
     [1, 0, 0, 0, 1]]
  | 'I' =>
    [[1, 1, 1, 1, 1],
     [0, 0, 1, 0, 0],
     [0, 0, 1, 0, 0],
     [0, 0, 1, 0, 0],
     [0, 0, 1, 0, 0],
     [0, 0, 1, 0, 0],
     [1, 1, 1, 1, 1]]
  | 'J' =>
    [[0, 0, 0, 0, 1],
     [0, 0, 0, 0, 1],
     [0, 0, 0, 0, 1],
     [0, 0, 0, 0, 1],
     [1, 0, 0, 0, 1],
     [1, 0, 0, 0, 1],
     [0, 1, 1, 1, 0]]
  | 'K' =>
    [[1, 0, 0, 0, 1],
     [1, 0, 0, 1, 0],
     [1, 0, 1, 0, 0],
     [1, 1, 0, 0, 0],
     [1, 0, 1, 0, 0],
     [1, 0, 0, 1, 0],
     [1, 0, 0, 0, 1]]
  | 'L' =>
    [[1, 0, 0, 0, 0],
     [1, 0, 0, 0, 0],
     [1, 0, 0, 0, 0],
     [1, 0, 0, 0, 0],
     [1, 0, 0, 0, 0],
     [1, 0, 0, 0, 0],
     [1, 1, 1, 1, 1]]
  | 'M' =>
    [[1, 0, 0, 0, 1],
     [1, 1, 0, 1, 1],
     [1, 0, 1, 0, 1],
     [1, 0, 0, 0, 1],
     [1, 0, 0, 0, 1],
     [1, 0, 0, 0, 1],
     [1, 0, 0, 0, 1]]
  | 'N' =>
    [[1, 0, 0, 0, 1],
     [1, 1, 0, 0, 1],
     [1, 0, 1, 0, 1],
     [1, 0, 0, 1, 1],
     [1, 0, 0, 0, 1],
     [1, 0, 0, 0, 1],
     [1, 0, 0, 0, 1]]
  | 'O' =>
    [[0, 1, 1, 1, 0],
     [1, 0, 0, 0, 1],
     [1, 0, 0, 0, 1],
     [1, 0, 0, 0, 1],
     [1, 0, 0, 0, 1],
     [1, 0, 0, 0, 1],
     [0, 1, 1, 1, 0]]
  | 'P' =>
    [[1, 1, 1, 1, 0],
     [1, 0, 0, 0, 1],
     [1, 0, 0, 0, 1],
     [1, 1, 1, 1, 0],
     [1, 0, 0, 0, 0],
     [1, 0, 0, 0, 0],
     [1, 0, 0, 0, 0]]
  | 'Q' =>
    [[0, 1, 1, 1, 0],
     [1, 0, 0, 0, 1],
     [1, 0, 0, 0, 1],
     [1, 0, 0, 0, 1],
     [1, 0, 1, 0, 1],
     [1, 0, 0, 1, 0],
     [0, 1, 1, 0, 1]]
  | 'R' =>
    [[1, 1, 1, 1, 0],
     [1, 0, 0, 0, 1],
     [1, 0, 0, 0, 1],
     [1, 1, 1, 1, 0],
     [1, 0, 1, 0, 0],
     [1, 0, 0, 1, 0],
     [1, 0, 0, 0, 1]]
  | 'S' =>
    [[0, 1, 1, 1, 0],
     [1, 0, 0, 0, 1],
     [1, 0, 0, 0, 0],
     [0, 1, 1, 1, 0],
     [0, 0, 0, 0, 1],
     [1, 0, 0, 0, 1],
     [0, 1, 1, 1, 0]]
  | 'T' =>
    [[1, 1, 1, 1, 1],
     [0, 0, 1, 0, 0],
     [0, 0, 1, 0, 0],
     [0, 0, 1, 0, 0],
     [0, 0, 1, 0, 0],
     [0, 0, 1, 0, 0],
     [0, 0, 1, 0, 0]]
  | 'U' =>
    [[1, 0, 0, 0, 1],
     [1, 0, 0, 0, 1],
     [1, 0, 0, 0, 1],
     [1, 0, 0, 0, 1],
     [1, 0, 0, 0, 1],
     [1, 0, 0, 0, 1],
     [0, 1, 1, 1, 0]]
  | 'V' =>
    [[1, 0, 0, 0, 1],
     [1, 0, 0, 0, 1],
     [1, 0, 0, 0, 1],
     [1, 0, 0, 0, 1],
     [0, 1, 0, 1, 0],
     [0, 1, 0, 1, 0],
     [0, 0, 1, 0, 0]]
  | 'W' =>
    [[1, 0, 0, 0, 1],
     [1, 0, 0, 0, 1],
     [1, 0, 0, 0, 1],
     [1, 0, 1, 0, 1],
     [1, 0, 1, 0, 1],
     [1, 1, 0, 1, 1],
     [1, 0, 0, 0, 1]]
  | 'X' =>
    [[1, 0, 0, 0, 1],
     [0, 1, 0, 1, 0],
     [0, 0, 1, 0, 0],
     [0, 0, 1, 0, 0],
     [0, 0, 1, 0, 0],
     [0, 1, 0, 1, 0],
     [1, 0, 0, 0, 1]]
  | 'Y' =>
    [[1, 0, 0, 0, 1],
     [0, 1, 0, 1, 0],
     [0, 0, 1, 0, 0],
     [0, 0, 1, 0, 0],
     [0, 0, 1, 0, 0],
     [0, 0, 1, 0, 0],
     [0, 0, 1, 0, 0]]
  | 'Z' =>
    [[1, 1, 1, 1, 1],
     [0, 0, 0, 0, 1],
     [0, 0, 0, 1, 0],
     [0, 0, 1, 0, 0],
     [0, 1, 0, 0, 0],
     [1, 0, 0, 0, 0],
     [1, 1, 1, 1, 1]]
  | '0' =>
    [[0, 1, 1, 1, 0],
     [1, 0, 0, 0, 1],
     [1, 0, 0, 1, 1],
     [1, 0, 1, 0, 1],
     [1, 1, 0, 0, 1],
     [1, 0, 0, 0, 1],
     [0, 1, 1, 1, 0]]
  | '1' =>
    [[0, 0, 1, 0, 0],
     [0, 1, 1, 0, 0],
     [0, 0, 1, 0, 0],
     [0, 0, 1, 0, 0],
     [0, 0, 1, 0, 0],
     [0, 0, 1, 0, 0],
     [1, 1, 1, 1, 1]]
  | '2' =>
    [[0, 1, 1, 1, 0],
     [1, 0, 0, 0, 1],
     [0, 0, 0, 0, 1],
     [0, 0, 0, 1, 0],
     [0, 0, 1, 0, 0],
     [0, 1, 0, 0, 0],
     [1, 1, 1, 1, 1]]
  | '3' =>
    [[0, 1, 1, 1, 0],
     [1, 0, 0, 0, 1],
     [0, 0, 0, 0, 1],
     [0, 0, 1, 1, 0],
     [0, 0, 0, 0, 1],
     [1, 0, 0, 0, 1],
     [0, 1, 1, 1, 0]]
  | '4' =>
    [[0, 0, 0, 1, 0],
     [0, 0, 1, 1, 0],
     [0, 1, 0, 1, 0],
     [1, 0, 0, 1, 0],
     [1, 1, 1, 1, 1],
     [0, 0, 0, 1, 0],
     [0, 0, 0, 1, 0]]
  | '5' =>
    [[1, 1, 1, 1, 1],
     [1, 0, 0, 0, 0],
     [1, 1, 1, 1, 0],
     [0, 0, 0, 0, 1],
     [0, 0, 0, 0, 1],
     [1, 0, 0, 0, 1],
     [0, 1, 1, 1, 0]]
  | '6' =>
    [[0, 0, 1, 1, 0],
     [0, 1, 0, 0, 0],
     [1, 0, 0, 0, 0],
     [1, 1, 1, 1, 0],
     [1, 0, 0, 0, 1],
     [1, 0, 0, 0, 1],
     [0, 1, 1, 1, 0]]
  | '7' =>
    [[1, 1, 1, 1, 1],
     [0, 0, 0, 0, 1],
     [0, 0, 0, 1, 0],
     [0, 0, 1, 0, 0],
     [0, 1, 0, 0, 0],
     [0, 1, 0, 0, 0],
     [0, 1, 0, 0, 0]]
  | '8' =>
    [[0, 1, 1, 1, 0],
     [1, 0, 0, 0, 1],
     [1, 0, 0, 0, 1],
     [0, 1, 1, 1, 0],
     [1, 0, 0, 0, 1],
     [1, 0, 0, 0, 1],
     [0, 1, 1, 1, 0]]
  | '9' =>
    [[0, 1, 1, 1, 0],
     [1, 0, 0, 0, 1],
     [1, 0, 0, 0, 1],
     [0, 1, 1, 1, 1],
     [0, 0, 0, 0, 1],
     [0, 0, 0, 1, 0],
     [0, 1, 1, 0, 0]]
  | _ =>
    [[0, 1, 1, 1, 0],
     [1, 0, 0, 0, 1],
     [1, 0, 0, 1, 1],
     [1, 0, 1, 0, 1],
     [1, 1, 0, 0, 1],
     [1, 0, 0, 0, 1],
     [0, 1, 1, 1, 0]]

/-- The characters with a dedicated arm in get_char_pattern. -/
def supported_chars : List Char :=
  ['A', 'B', 'C', 'D', 'E', 'F', 'G', 'H', 'I', 'J', 'K', 'L', 'M', 'N', 'O', 'P', 'Q', 'R', 'S', 'T', 'U', 'V', 'W', 'X', 'Y', 'Z', '0', '1', '2', '3', '4', '5', '6', '7', '8', '9']

/-- A rasterizer body that always succeeds with one byte, used to
instantiate generate_icon_step on concrete runs. -/
def render_stub : ValidatedSpec → RunResult (Except String (List ℕ)) :=
  fun _ => RunResult.ret (Except.ok [0])

/-- A preview-handle constructor that always succeeds, used to instantiate
generate_icon_step on concrete runs. -/
def mk_handle_stub : List ℕ → RunResult (List ℕ) :=
  fun d => RunResult.ret d

/-- A tool state holding a previously generated icon and preview handle,
whose text field has been cleared, so the next generation request fails
the empty-text check. -/
def prior_icon_state : IconState :=
  { text := []
    size := "128".toList
    background_color := "#3B82F6".toList
    text_color := "#FFFFFF".toList
    generated_icon := some [7]
    icon_handle := some [7]
    status_message := "Icon generated successfully!" }

/-- Claim C1: for every pair of coordinates, calculate_distance returns a
Distance whose km equals the Haversine great-circle formula of the
specification, and whose miles field equals km × 0.621371. -/
theorem calculate_distance_matches_haversine (p1 p2 : Coordinates) :
    (calculate_distance p1 p2).km =
      haversine_spec_km (p1.lat : ℝ) (p1.lon : ℝ) (p2.lat : ℝ) (p2.lon : ℝ) ∧
    (calculate_distance p1 p2).miles = (calculate_distance p1 p2).km * 0.621371 := by
  constructor
  · simp only [calculate_distance, haversine_spec_km]
    have h1 : ((p2.lat : ℝ) - (p1.lat : ℝ)) * Real.pi / 180 / 2 =
        ((p2.lat : ℝ) * Real.pi / 180 - (p1.lat : ℝ) * Real.pi / 180) / 2 := by ring
    have h2 : ((p2.lon : ℝ) - (p1.lon : ℝ)) * Real.pi / 180 / 2 =
        ((p2.lon : ℝ) * Real.pi / 180 - (p1.lon : ℝ) * Real.pi / 180) / 2 := by ring
    rw [h1, h2]
  · rfl

/-- Claim C8: calculate_distance is symmetric in its two arguments, in both
the km and the miles fields (exactly, in the idealized real model). -/
theorem calculate_distance_symm (p1 p2 : Coordinates) :
    calculate_distance p1 p2 = calculate_distance p2 p1 := by
  simp only [calculate_distance]
  have h1 : ((p1.lat : ℝ) - (p2.lat : ℝ)) * Real.pi / 180 / 2 =
      -(((p2.lat : ℝ) - (p1.lat : ℝ)) * Real.pi / 180 / 2) := by ring
  have h2 : ((p1.lon : ℝ) - (p2.lon : ℝ)) * Real.pi / 180 / 2 =
      -(((p2.lon : ℝ) - (p1.lon : ℝ)) * Real.pi / 180 / 2) := by ring
  rw [h1, h2, Real.sin_neg, Real.sin_neg, neg_sq, neg_sq,
    mul_comm (Real.cos ((p2.lat : ℝ) * Real.pi / 180))
      (Real.cos ((p1.lat : ℝ) * Real.pi / 180))]

/-- Claim C2: calculate_with_validation checks point A first (latitude then
longitude), then point B, returning the first failure, accepting the
boundary values, and otherwise returning the computed distance. -/
theorem calculate_with_validation_order (lat1 lon1 lat2 lon2 : ℚ) :
    ((lat1 < -90 ∨ 90 < lat1) →
      calculate_with_validation lat1 lon1 lat2 lon2 =
        Except.error (DistanceError.InvalidLatitude lat1)) ∧
    (-90 ≤ lat1 → lat1 ≤ 90 → (lon1 < -180 ∨ 180 < lon1) →
      calculate_with_validation lat1 lon1 lat2 lon2 =
        Except.error (DistanceError.InvalidLongitude lon1)) ∧
    (-90 ≤ lat1 → lat1 ≤ 90 → -180 ≤ lon1 → lon1 ≤ 180 → (lat2 < -90 ∨ 90 < lat2) →
      calculate_with_validation lat1 lon1 lat2 lon2 =
        Except.error (DistanceError.InvalidLatitude lat2)) ∧
    (-90 ≤ lat1 → lat1 ≤ 90 → -180 ≤ lon1 → lon1 ≤ 180 → -90 ≤ lat2 → lat2 ≤ 90 →
      (lon2 < -180 ∨ 180 < lon2) →
      calculate_with_validation lat1 lon1 lat2 lon2 =
        Except.error (DistanceError.InvalidLongitude lon2)) ∧
    (-90 ≤ lat1 → lat1 ≤ 90 → -180 ≤ lon1 → lon1 ≤ 180 → -90 ≤ lat2 → lat2 ≤ 90 →
      -180 ≤ lon2 → lon2 ≤ 180 →
      calculate_with_validation lat1 lon1 lat2 lon2 =
        Except.ok (calculate_distance ⟨lat1, lon1⟩ ⟨lat2, lon2⟩)) := by
  refine ⟨?_, ?_, ?_, ?_, ?_⟩
  · intro h
    simp only [calculate_with_validation, validate_coordinates, if_pos h]
  · intro ha1 ha2 h
    simp only [calculate_with_validation, validate_coordinates]
    rw [if_neg (by push_neg; exact ⟨by linarith, by linarith⟩), if_pos h]
  · intro ha1 ha2 hb1 hb2 h
    simp only [calculate_with_validation, validate_coordinates]
    rw [if_neg (by push_neg; exact ⟨by linarith, by linarith⟩),
      if_neg (by push_neg; exact ⟨by linarith, by linarith⟩), if_pos h]
  · intro ha1 ha2 hb1 hb2 hc1 hc2 h
    simp only [calculate_with_validation, validate_coordinates]
    rw [if_neg (by push_neg; exact ⟨by linarith, by linarith⟩),
      if_neg (by push_neg; exact ⟨by linarith, by linarith⟩),
      if_neg (by push_neg; exact ⟨by linarith, by linarith⟩), if_pos h]
  · intro ha1 ha2 hb1 hb2 hc1 hc2 hd1 hd2
    simp only [calculate_with_validation, validate_coordinates]
    rw [if_neg (by push_neg; exact ⟨by linarith, by linarith⟩),
      if_neg (by push_neg; exact ⟨by linarith, by linarith⟩),
      if_neg (by push_neg; exact ⟨by linarith, by linarith⟩),
      if_neg (by push_neg; exact ⟨by linarith, by linarith⟩)]

/-- Witness for claim C2: the invalid latitude 91 for point A is reported
first, and the boundary point (90, 180) together with (0, 0) validates. -/
theorem calculate_with_validation_order_witness :
    calculate_with_validation 91 0 0 0 =
      Except.error (DistanceError.InvalidLatitude 91) ∧
    calculate_with_validation 90 180 0 0 =
      Except.ok (calculate_distance ⟨90, 180⟩ ⟨0, 0⟩) := by
  constructor
  · exact (calculate_with_validation_order 91 0 0 0).1 (Or.inr (by norm_num))
  · exact (calculate_with_validation_order 90 180 0 0).2.2.2.2 (by norm_num)
      (by norm_num) (by norm_num) (by norm_num) (by norm_num) (by norm_num)
      (by norm_num) (by norm_num)

lemma hex_le_15 {c : Char} {v : ℕ} (h : hex_digit_val c = some v) : v ≤ 15 := by
  unfold hex_digit_val at h
  split_ifs at h with h1 h2 h3 <;> injection h with h4 <;> omega

lemma hex_toNat_le {c : Char} (h : (hex_digit_val c).isSome = true) :
    48 ≤ c.toNat ∧ c.toNat ≤ 102 := by
  unfold hex_digit_val at h
  split_ifs at h with h1 h2 h3 <;> first
    | omega
    | simp at h

lemma utf8_len_of_hex {c : Char} (h : (hex_digit_val c).isSome = true) :
    utf8_len c = 1 := by
  have hb := hex_toNat_le h
  unfold utf8_len
  rw [if_pos (by omega)]

lemma hex_ne_hash {c : Char} (h : (hex_digit_val c).isSome = true) : c ≠ '#' := by
  intro he
  rw [he] at h
  simp [hex_digit_val] at h

lemma hex_ne_plus {c : Char} (h : (hex_digit_val c).isSome = true) : c ≠ '+' := by
  intro he
  rw [he] at h
  simp [hex_digit_val] at h

lemma dropwhile_hash_of_hex (s : List Char)
    (h : ∀ c ∈ s, (hex_digit_val c).isSome = true) :
    s.dropWhile (fun c => c == '#') = s := by
  cases s with
  | nil => rfl
  | cons c t =>
    have hc : (c == '#') = false :=
      beq_eq_false_iff_ne.mpr (hex_ne_hash (h c (List.mem_cons_self c t)))
    simp [List.dropWhile_cons, hc]

lemma utf8_length_of_hex (s : List Char)
    (h : ∀ c ∈ s, (hex_digit_val c).isSome = true) :
    utf8_length s = s.length := by
  induction s with
  | nil => rfl
  | cons c t ih =>
    have hc := utf8_len_of_hex (h c (List.mem_cons_self c t))
    simp [utf8_length, hc, ih (fun x hx => h x (List.mem_cons_of_mem c hx))]
    omega

lemma split_at_byte_two {a b : Char} (t : List Char)
    (ha : utf8_len a = 1) (hb : utf8_len b = 1) :
    split_at_byte 2 (a :: b :: t) = some ([a, b], t) := by
  simp [split_at_byte, ha, hb]

lemma from_str_radix_two_hex {a b : Char} {va vb : ℕ}
    (ha : hex_digit_val a = some va) (hb : hex_digit_val b = some vb) :
    from_str_radix_16_u8 [a, b] = some (va * 16 + vb) := by
  have hpa : a ≠ '+' := hex_ne_plus (by rw [ha]; rfl)
  have bva := hex_le_15 ha
  have bvb := hex_le_15 hb
  unfold from_str_radix_16_u8
  simp only [if_neg hpa]
  simp [hex_fold, ha, hb]
  omega

/-- Claim C4 evidence: a background color made of a three-byte character
followed by three ASCII characters has byte length 6, but byte offset 2 is
not a character boundary, so parse_hex_color panics; this call site is
outside the catch_unwind boundary of generate_icon, so the whole
generation step panics instead of returning a reported failure. -/
theorem parse_hex_color_multibyte_panic :
    parse_hex_color ("€abc".toList) = RunResult.panicked ∧
    validate_icon ⟨"A".toList, "128".toList, "€abc".toList, "#FFFFFF".toList⟩ =
      RunResult.panicked := by
  constructor
  · decide
  · decide

/-- Counterexample to claim C5: the input ##3498db succeeds in the code
(trim_start_matches strips every leading hash), while the claim, which
strips at most one leading hash and then demands exactly 6 hexadecimal
digits, says it must fail. -/
theorem parse_hex_color_double_hash_counterexample :
    parse_hex_color ("##3498db".toList) = RunResult.ret (Except.ok (52, 152, 219)) ∧
    claim_c5_accepts ("##3498db".toList) = false := by
  constructor
  · decide
  · decide

/-- Claim C5 (amended): parse_hex_color strips ALL leading hash characters;
on a remainder made of hexadecimal digits it succeeds exactly when 6
digits remain, returning the three 2-digit group values. -/
theorem parse_hex_color_amended :
    (∀ s : List Char, parse_hex_color ('#' :: s) = parse_hex_color s) ∧
    (∀ s : List Char, (∀ c ∈ s, (hex_digit_val c).isSome = true) → s.length ≠ 6 →
      parse_hex_color s = RunResult.ret (Except.error "Color must be in #RRGGBB format")) ∧
    (∀ a b c d e f : Char, ∀ va vb vc vd ve vf : ℕ,
      hex_digit_val a = some va → hex_digit_val b = some vb →
      hex_digit_val c = some vc → hex_digit_val d = some vd →
      hex_digit_val e = some ve → hex_digit_val f = some vf →
      parse_hex_color [a, b, c, d, e, f] =
        RunResult.ret (Except.ok (va * 16 + vb, vc * 16 + vd, ve * 16 + vf))) := by
  refine ⟨?_, ?_, ?_⟩
  · intro s
    simp [parse_hex_color, List.dropWhile_cons]
  · intro s hs hlen
    simp only [parse_hex_color]
    rw [dropwhile_hash_of_hex s hs, utf8_length_of_hex s hs, if_pos hlen]
  · intro a b c d e f va vb vc vd ve vf ha hb hc hd he hf
    have l1 := utf8_len_of_hex (by rw [ha]; rfl)
    have l2 := utf8_len_of_hex (by rw [hb]; rfl)
    have l3 := utf8_len_of_hex (by rw [hc]; rfl)
    have l4 := utf8_len_of_hex (by rw [hd]; rfl)
    have l5 := utf8_len_of_hex (by rw [he]; rfl)
    have l6 := utf8_len_of_hex (by rw [hf]; rfl)
    have hne : (a == '#') = false :=
      beq_eq_false_iff_ne.mpr (hex_ne_hash (by rw [ha]; rfl))
    simp only [parse_hex_color, List.dropWhile_cons, hne, Bool.false_eq_true,
      if_false]
    rw [show utf8_length [a, b, c, d, e, f] = 6 by
      simp [utf8_length, l1, l2, l3, l4, l5, l6]]
    simp only [ne_eq, not_true_eq_false, if_false,
      split_at_byte_two _ l1 l2, split_at_byte_two _ l3 l4,
      split_at_byte_two _ l5 l6,
      from_str_radix_two_hex ha hb, from_str_radix_two_hex hc hd,
      from_str_radix_two_hex he hf]

/-- Witness for claim C5 (amended): the fixtures of the specification, with
3498db parsed to (52, 152, 219) and the short input #123 rejected. -/
theorem parse_hex_color_amended_witness :
    parse_hex_color ['3', '4', '9', '8', 'd', 'b'] =
      RunResult.ret (Except.ok (3 * 16 + 4, 9 * 16 + 8, 13 * 16 + 11)) ∧
    parse_hex_color ('#' :: ['1', '2', '3']) = parse_hex_color ['1', '2', '3'] ∧
    parse_hex_color ['1', '2', '3'] =
      RunResult.ret (Except.error "Color must be in #RRGGBB format") := by
  refine ⟨?_, ?_, ?_⟩
  · exact parse_hex_color_amended.2.2 '3' '4' '9' '8' 'd' 'b' 3 4 9 8 13 11
      (by decide) (by decide) (by decide) (by decide) (by decide) (by decide)
  · exact parse_hex_color_amended.1 ['1', '2', '3']
  · exact parse_hex_color_amended.2.1 ['1', '2', '3'] (by decide) (by decide)

/-- Claim C3: the validation of generate_icon performs its checks in the
fixed source order (text, size, background color, text color, distinct
colors), reports the first failure, reaches rasterization only when all
five checks pass, and rejects the sizes 15 and 2000 as invalid. -/
theorem generate_icon_validation_order :
    (∀ inp : IconInputs, rust_trim inp.text = [] →
      validate_icon inp = RunResult.ret (Except.error IconErr.EmptyText)) ∧
    (∀ inp : IconInputs, rust_trim inp.text ≠ [] → size_check inp.size = none →
      validate_icon inp = RunResult.ret (Except.error IconErr.InvalidSize)) ∧
    (∀ inp : IconInputs, ∀ n : ℕ, ∀ e : String,
      rust_trim inp.text ≠ [] → size_check inp.size = some n →
      parse_hex_color inp.background_color = RunResult.ret (Except.error e) →
      validate_icon inp = RunResult.ret (Except.error (IconErr.InvalidBackgroundColor e))) ∧
    (∀ inp : IconInputs, ∀ n : ℕ, ∀ bg : ℕ × ℕ × ℕ, ∀ e : String,
      rust_trim inp.text ≠ [] → size_check inp.size = some n →
      parse_hex_color inp.background_color = RunResult.ret (Except.ok bg) →
      parse_hex_color inp.text_color = RunResult.ret (Except.error e) →
      validate_icon inp = RunResult.ret (Except.error (IconErr.InvalidTextColor e))) ∧
    (∀ inp : IconInputs, ∀ n : ℕ, ∀ bg tc : ℕ × ℕ × ℕ,
      rust_trim inp.text ≠ [] → size_check inp.size = some n →
      parse_hex_color inp.background_color = RunResult.ret (Except.ok bg) →
      parse_hex_color inp.text_color = RunResult.ret (Except.ok tc) →
      bg = tc →
      validate_icon inp = RunResult.ret (Except.error IconErr.IndistinctColors)) ∧
    (∀ inp : IconInputs, ∀ n : ℕ, ∀ bg tc : ℕ × ℕ × ℕ,
      rust_trim inp.text ≠ [] → size_check inp.size = some n →
      parse_hex_color inp.background_color = RunResult.ret (Except.ok bg) →
      parse_hex_color inp.text_color = RunResult.ret (Except.ok tc) →
      bg ≠ tc →
      validate_icon inp = RunResult.ret (Except.ok ⟨n, bg, tc⟩)) ∧
    (∀ text bg tc : List Char, rust_trim text ≠ [] →
      validate_icon ⟨text, "15".toList, bg, tc⟩ =
        RunResult.ret (Except.error IconErr.InvalidSize)) ∧
    (∀ text bg tc : List Char, rust_trim text ≠ [] →
      validate_icon ⟨text, "2000".toList, bg, tc⟩ =
        RunResult.ret (Except.error IconErr.InvalidSize)) := by
  refine ⟨?_, ?_, ?_, ?_, ?_, ?_, ?_, ?_⟩
  · intro inp h
    unfold validate_icon
    rw [if_pos h]
  · intro inp h1 h2
    unfold validate_icon
    rw [if_neg h1, h2]
  · intro inp n e h1 h2 h3
    unfold validate_icon
    rw [if_neg h1, h2, h3]
  · intro inp n bg e h1 h2 h3 h4
    unfold validate_icon
    rw [if_neg h1, h2, h3, h4]
  · intro inp n bg tc h1 h2 h3 h4 h5
    unfold validate_icon
    rw [if_neg h1, h2, h3, h4]
    simp only [if_pos h5]
  · intro inp n bg tc h1 h2 h3 h4 h5
    unfold validate_icon
    rw [if_neg h1, h2, h3, h4]
    simp only [if_neg h5]
  · intro text bg tc h
    unfold validate_icon
    rw [if_neg h]
    rw [show size_check ("15".toList) = none from by decide]
  · intro text bg tc h
    unfold validate_icon
    rw [if_neg h]
    rw [show size_check ("2000".toList) = none from by decide]

/-- Witness for claim C3: the whitespace-only text fails the empty check,
the valid inputs A, 128, blue and white validate, and the sizes 15 and
2000 are rejected. -/
theorem generate_icon_validation_order_witness :
    validate_icon ⟨[' '], "128".toList, "#3B82F6".toList, "#FFFFFF".toList⟩ =
      RunResult.ret (Except.error IconErr.EmptyText) ∧
    validate_icon ⟨"A".toList, "128".toList, "#3B82F6".toList, "#FFFFFF".toList⟩ =
      RunResult.ret (Except.ok ⟨128, (59, 130, 246), (255, 255, 255)⟩) ∧
    validate_icon ⟨"A".toList, "15".toList, "#3B82F6".toList, "#FFFFFF".toList⟩ =
      RunResult.ret (Except.error IconErr.InvalidSize) ∧
    validate_icon ⟨"A".toList, "2000".toList, "#3B82F6".toList, "#FFFFFF".toList⟩ =
      RunResult.ret (Except.error IconErr.InvalidSize) := by
  refine ⟨?_, ?_, ?_, ?_⟩
  · exact generate_icon_validation_order.1 _ (by decide)
  · exact generate_icon_validation_order.2.2.2.2.2.1 _ 128 (59, 130, 246)
      (255, 255, 255) (by decide) (by decide) (by decide) (by decide) (by decide)
  · exact generate_icon_validation_order.2.2.2.2.2.2.1 _ _ _ (by decide)
  · exact generate_icon_validation_order.2.2.2.2.2.2.2 _ _ _ (by decide)

/-- Counterexample to claim C6: at the validated size 128 with one
character, create_icon_image computes font size 76, where the horizontal
layout cell width is 5 times max(1, 76 / 8) = 45, while the glyph-drawing
pixel block is clamped to 8, giving a drawing cell width of 40. -/
theorem layout_cell_width_counterexample :
    font_size_model 128 1 = 76 ∧
    layout_char_pixel_width (font_size_model 128 1) ≠
      5 * draw_pixel_size (font_size_model 128 1) := by
  constructor
  · decide
  · decide

/-- Claim C6 (amended): the layout cell width is 5 × max(1, fontSize/8)
without the upper clamp at 8 applied by the glyph-drawing routine, and the
two cell widths coincide exactly when fontSize/8 does not exceed 8. -/
theorem layout_cell_width_amended (fs : ℕ) (h : fs < 4294967296) :
    layout_char_pixel_width fs = 5 * max 1 (fs / 8) ∧
    (fs / 8 ≤ 8 → layout_char_pixel_width fs = draw_char_pixel_width fs) := by
  constructor
  · unfold layout_char_pixel_width sat_mul u32_max
    omega
  · intro h8
    unfold layout_char_pixel_width draw_char_pixel_width draw_pixel_size sat_mul u32_max
    omega

/-- Witness for claim C6 (amended): at font size 40 the layout cell width
is 5 × max(1, 5) = 25 and agrees with the drawing cell width. -/
theorem layout_cell_width_amended_witness :
    layout_char_pixel_width 40 = 5 * max 1 (40 / 8) ∧
    layout_char_pixel_width 40 = draw_char_pixel_width 40 := by
  constructor
  · exact (layout_cell_width_amended 40 (by norm_num)).1
  · exact (layout_cell_width_amended 40 (by norm_num)).2 (by norm_num)

lemma display_text_take (t : List Char) :
    display_text t = rust_to_uppercase (t.take 3) := by
  unfold display_text
  by_cases h : t.length > 3
  · rw [if_pos h]
  · rw [if_neg h, List.take_of_length_le (by omega)]

lemma rust_to_uppercase_length (t : List Char)
    (h : ∀ c ∈ t, (rust_char_to_uppercase c).length = 1) :
    (rust_to_uppercase t).length = t.length := by
  induction t with
  | nil => rfl
  | cons c rest ih =>
    simp only [rust_to_uppercase, List.length_append, List.length_cons]
    rw [h c (List.mem_cons_self c rest),
      ih (fun x hx => h x (List.mem_cons_of_mem c hx))]
    omega

lemma drawn_glyphs_complete (width height start_x start_y step : ℕ)
    (hy : start_y < height) (hw : width ≤ u32_max) :
    ∀ (t : List Char) (idx : ℕ), start_x + (idx + t.length) * step < width →
      drawn_glyphs width height start_x start_y step idx t = t := by
  intro t
  induction t with
  | nil => intro idx h; rfl
  | cons c rest ih =>
    intro idx h
    simp only [List.length_cons] at h
    have hmul : idx * step ≤ (idx + (rest.length + 1)) * step :=
      Nat.mul_le_mul_right _ (by omega)
    have hsm : sat_mul idx step = idx * step := by
      unfold sat_mul u32_max
      unfold u32_max at hw
      omega
    have hsa : sat_add start_x (idx * step) = start_x + idx * step := by
      unfold sat_add u32_max
      unfold u32_max at hw
      omega
    unfold drawn_glyphs
    rw [hsm, hsa, if_neg (by omega)]
    have heq : (idx + 1 + rest.length) * step = (idx + (rest.length + 1)) * step := by
      ring_nf
    rw [ih (idx + 1) (by rw [heq]; omega)]

/-- Counterexample to claim C7: the three-character input made of three
sharp s characters is not clipped (it has exactly 3 characters), but
uppercasing expands each to SS, so the glyph loop receives six characters
and renders six glyphs, not at most 3. -/
theorem display_text_expansion_counterexample :
    display_text ['ß', 'ß', 'ß'] = ['S', 'S', 'S', 'S', 'S', 'S'] ∧
    (display_text ['ß', 'ß', 'ß']).length = 6 := by
  constructor
  · decide
  · decide

/-- Claim C7 (amended): the rasterized text is the uppercase of the first
3 characters of the input; its glyph count is at most 3 whenever every
retained character uppercases to a single character (as ASCII does), and
the glyph loop processes exactly those characters in order whenever they
all start inside the canvas. -/
theorem display_text_amended :
    (∀ t : List Char, display_text t = rust_to_uppercase (t.take 3)) ∧
    (∀ t : List Char, (∀ c ∈ t.take 3, (rust_char_to_uppercase c).length = 1) →
      (display_text t).length ≤ 3) ∧
    (∀ width height start_x start_y step : ℕ, ∀ t : List Char,
      start_y < height → width ≤ u32_max → start_x + t.length * step < width →
      drawn_glyphs width height start_x start_y step 0 t = t) := by
  refine ⟨display_text_take, ?_, ?_⟩
  · intro t h
    rw [display_text_take t, rust_to_uppercase_length _ h]
    have := List.length_take 3 t
    omega
  · intro width height start_x start_y step t hy hw h
    exact drawn_glyphs_complete width height start_x start_y step hy hw t 0
      (by rw [Nat.zero_add]; exact h)

/-- Witness for claim C7 (amended): a two-letter ASCII input keeps at most
3 glyphs, and a single glyph well inside a 100-pixel canvas is drawn. -/
theorem display_text_amended_witness :
    display_text ['a', 'b'] = rust_to_uppercase (['a', 'b'].take 3) ∧
    (display_text ['a', 'b']).length ≤ 3 ∧
    drawn_glyphs 100 100 10 10 10 0 ['A'] = ['A'] := by
  refine ⟨?_, ?_, ?_⟩
  · exact display_text_amended.1 ['a', 'b']
  · exact display_text_amended.2.1 ['a', 'b'] (by decide)
  · exact display_text_amended.2.2 100 100 10 10 10 ['A'] (by norm_num)
      (by decide) (by norm_num)

/-- Counterexample to claim C9: generate_icon resets generated_icon and
icon_handle to None before validating (the source comment calls it
resetting previous state), so a failing request — here the empty-text
failure — clears the previously generated icon instead of retaining it. -/
theorem generate_icon_reset_counterexample :
    generate_icon_step render_stub mk_handle_stub prior_icon_state =
      RunResult.ret
        { prior_icon_state with
          generated_icon := none
          icon_handle := none
          status_message := "Please enter text for the icon" } ∧
    prior_icon_state.generated_icon = some [7] ∧
    prior_icon_state.icon_handle = some [7] := by
  refine ⟨?_, ?_, ?_⟩
  · decide
  · decide
  · decide

/-- Claim C9 (amended): a failing generation request — a validation error,
a rasterization error, or a caught rasterization panic — leaves the tool
with generated_icon and icon_handle cleared (they are reset at entry) and
only the status message describing the failure. -/
theorem generate_icon_failure_clears_state
    (render : ValidatedSpec → RunResult (Except String (List ℕ)))
    (mk_handle : List ℕ → RunResult (List ℕ)) (st : IconState) :
    (∀ e : IconErr,
      validate_icon (icon_inputs st) = RunResult.ret (Except.error e) →
      generate_icon_step render mk_handle st =
        RunResult.ret
          { st with
            generated_icon := none
            icon_handle := none
            status_message := icon_err_status e }) ∧
    (∀ spec : ValidatedSpec, ∀ e : String,
      validate_icon (icon_inputs st) = RunResult.ret (Except.ok spec) →
      render spec = RunResult.ret (Except.error e) →
      generate_icon_step render mk_handle st =
        RunResult.ret
          { st with
            generated_icon := none
            icon_handle := none
            status_message := "Failed to generate icon: " ++ e }) ∧
    (∀ spec : ValidatedSpec,
      validate_icon (icon_inputs st) = RunResult.ret (Except.ok spec) →
      render spec = RunResult.panicked →
      generate_icon_step render mk_handle st =
        RunResult.ret
          { st with
            generated_icon := none
            icon_handle := none
            status_message :=
              "Icon generation failed due to internal error. Try different settings." }) := by
  refine ⟨?_, ?_, ?_⟩
  · intro e h
    simp only [generate_icon_step, h]
  · intro spec e h hr
    simp only [generate_icon_step, h, hr]
  · intro spec h hr
    simp only [generate_icon_step, h, hr]

/-- Witness for claim C9 (amended): on the stored prior state with empty
text, the failing request ends with both icon fields cleared and the
empty-text status message. -/
theorem generate_icon_failure_clears_state_witness :
    generate_icon_step render_stub mk_handle_stub prior_icon_state =
      RunResult.ret
        { prior_icon_state with
          generated_icon := none
          icon_handle := none
          status_message := icon_err_status IconErr.EmptyText } :=
  (generate_icon_failure_clears_state render_stub mk_handle_stub
    prior_icon_state).1 IconErr.EmptyText (by decide)

/-- Claim C10: every glyph pattern has exactly 7 rows of exactly 5 entries,
each entry 0 or 1, and every unsupported character falls back to the
pattern of the digit 0. -/
theorem get_char_pattern_shape_and_fallback :
    (∀ c : Char, (get_char_pattern c).length = 7 ∧
      ∀ row ∈ get_char_pattern c, row.length = 5 ∧ ∀ b ∈ row, b = 0 ∨ b = 1) ∧
    (∀ c : Char, c ∉ supported_chars → get_char_pattern c = get_char_pattern '0') := by
  constructor
  · intro c
    unfold get_char_pattern
    split <;> decide
  · intro c hc
    unfold get_char_pattern
    split
    all_goals first
      | rfl
      | (exfalso; exact hc (by decide))

/-- Witness for claim C10: the unsupported question mark renders with the
fallback pattern, which is the pattern of the digit 0. -/
theorem get_char_pattern_shape_and_fallback_witness :
    (get_char_pattern 'A').length = 7 ∧
    get_char_pattern '?' = get_char_pattern '0' := by
  constructor
  · exact (get_char_pattern_shape_and_fallback.1 'A').1
  · exact get_char_pattern_shape_and_fallback.2 '?' (by decide)
